import Mathlib

/-!
Verification of the quotation lifecycle and numbering engine of the
Stackflow business-management backend.

The Python source (src/crud/quotation_service.py, src/routes/quotations.py,
src/models/quotation.py, src/schemas/quotation.py) is shallowly embedded:

* Monetary values (Python floats) are modelled as exact rationals; `round(x, 2)`
  is modelled as round-half-to-even at two decimals (`pyRound2`), which is
  Python's documented rounding mode.
* The relational store is modelled as two lists of records (`DB`); SQLAlchemy
  queries become list filters, and `first()` on an id filter becomes `List.find?`.
* Python's `==` between an `enum.Enum` member and a `str` is always `False`
  (plain `enum.Enum` compares by identity).  This cross-type comparison, which
  the routes perform when they look up a status in string-keyed tables, is
  modelled by the two-constructor universe `PyVal` with equality `pyEq`.
* Dates and timestamps are modelled as natural numbers (ordinal day / tick),
  which preserves their ordering.
-/

/-- Round half to even of a rational, as Python's round does on exact values. -/
def roundHalfEven (x : ℚ) : ℤ :=
  if x - ⌊x⌋ < 1/2 then ⌊x⌋
  else if x - ⌊x⌋ > 1/2 then ⌊x⌋ + 1
  else if ⌊x⌋ % 2 = 0 then ⌊x⌋ else ⌊x⌋ + 1

/-- Python's round(x, 2): scale by 100, round half to even, scale back. -/
def pyRound2 (x : ℚ) : ℚ := (roundHalfEven (x * 100) : ℚ) / 100

/-- A rational that is a whole number of cents. -/
def IsCents (x : ℚ) : Prop := ∃ z : ℤ, x * 100 = (z : ℚ)

/-- QuotationStatusEnum from src/models/quotation.py: a plain enum.Enum with
the four Spanish-named states (draft, sent, approved, rejected). -/
inductive QuotationStatusEnum
  | borrador
  | enviada
  | aprobada
  | rechazada
  deriving DecidableEq, Fintype

/-- The string value of a status, as carried by the str-mixin enum
QuotationStatus of src/schemas/quotation.py. -/
def statusStr : QuotationStatusEnum → String
  | .borrador => "borrador"
  | .enviada => "enviada"
  | .aprobada => "aprobada"
  | .rechazada => "rechazada"

/-- The fragment of Python's value universe needed for the status comparisons:
plain strings (including str-mixin enum members, which ARE their string value)
and members of the plain enum QuotationStatusEnum. -/
inductive PyVal
  | str : String → PyVal
  | enumMember : QuotationStatusEnum → PyVal
  deriving DecidableEq

/-- Python equality on this universe: a plain enum member is equal only to
itself (enum.Enum inherits identity equality from object), never to a str. -/
def pyEq : PyVal → PyVal → Bool
  | .str a, .str b => a == b
  | .enumMember a, .enumMember b => a == b
  | _, _ => false

/-- Python's `x in list`. -/
def pyIn (x : PyVal) (l : List PyVal) : Bool := l.any (fun y => pyEq y x)

/-- Python's `dict.get(key, default)` on an association list. -/
def pyDictGet (d : List (PyVal × List PyVal)) (k : PyVal) (dflt : List PyVal) :
    List PyVal :=
  match d.find? (fun p => pyEq p.fst k) with
  | some p => p.snd
  | none => dflt

/-- The valid_transitions dict literal of update_quotation_status
(src/routes/quotations.py lines 382-387); its keys and values are strings. -/
def valid_transitions : List (PyVal × List PyVal) :=
  [(.str "borrador", [.str "enviada"]),
   (.str "enviada", [.str "aprobada", .str "rechazada", .str "borrador"]),
   (.str "aprobada", []),
   (.str "rechazada", [.str "borrador"])]

/-- The transition test the route actually performs:
new_status (a str-mixin enum, hence a string) is looked up in
valid_transitions.get(current_status, []) where current_status is a plain
QuotationStatusEnum member loaded from the database. -/
def transitionAllowed (cur ns : QuotationStatusEnum) : Bool :=
  pyIn (.str (statusStr ns)) (pyDictGet valid_transitions (.enumMember cur) [])

/-- The allowed-transition table as the spec (section 4.3) and the route's own
docstring and dict values state it: draft to sent; sent to approved, rejected
or draft; rejected to draft; approved terminal. -/
def specAllowedTransition : QuotationStatusEnum → QuotationStatusEnum → Bool
  | .borrador, .enviada => true
  | .enviada, .aprobada => true
  | .enviada, .rechazada => true
  | .enviada, .borrador => true
  | .rechazada, .borrador => true
  | _, _ => false

/-- Input data of one quotation item (schema QuotationItemCreate). -/
structure ItemInput where
  product_id : Option Nat
  product_name : String
  product_description : Option String
  product_code : Option String
  quantity : ℚ
  unit_price : ℚ
  discount_percentage : ℚ
  deriving DecidableEq

/-- Result of QuotationService.calculate_item_totals. -/
structure ItemTotals where
  subtotal : ℚ
  discount_amount : ℚ
  total : ℚ
  deriving DecidableEq

/-- QuotationService.calculate_item_totals: the raw subtotal, discount and
total are computed first, and each returned field is rounded once at the end. -/
def calculate_item_totals (i : ItemInput) : ItemTotals :=
  let subtotal := i.quantity * i.unit_price
  let discount_amount := subtotal * (i.discount_percentage / 100)
  let total := subtotal - discount_amount
  { subtotal := pyRound2 subtotal
    discount_amount := pyRound2 discount_amount
    total := pyRound2 total }

/-- A stored quotation item row (model QuotationItem). -/
structure QuotationItemRec where
  id : Nat
  quotation_id : Nat
  product_id : Option Nat
  product_name : String
  product_description : Option String
  product_code : Option String
  quantity : ℚ
  unit_price : ℚ
  discount_percentage : ℚ
  subtotal : ℚ
  discount_amount : ℚ
  total : ℚ
  deriving DecidableEq

/-- A stored quotation row (model Quotation). -/
structure QuotationRec where
  id : Nat
  quotation_number : String
  client_name : String
  client_email : String
  client_phone : Option String
  client_address : Option String
  client_document : Option String
  status : QuotationStatusEnum
  created_at : Nat
  valid_until : Nat
  subtotal : ℚ
  discount_total : ℚ
  tax_total : ℚ
  total : ℚ
  notes : Option String
  internal_notes : Option String
  created_by : Nat
  deriving DecidableEq

/-- The relational store: the quotations and quotation_items tables. -/
structure DB where
  quotations : List QuotationRec
  items : List QuotationItemRec
  deriving DecidableEq

/-- Result of QuotationService.calculate_quotation_totals. -/
structure DocTotals where
  subtotal : ℚ
  discount_total : ℚ
  tax_total : ℚ
  total : ℚ
  deriving DecidableEq

/-- QuotationService.calculate_quotation_totals: sums the items' stored
subtotal and discount_amount fields, tax is the constant 0.0, total is
computed from the raw sums, and each returned field is rounded once. -/
def calculate_quotation_totals (items : List QuotationItemRec) : DocTotals :=
  let subtotal := (items.map (fun it => it.subtotal)).sum
  let discount_total := (items.map (fun it => it.discount_amount)).sum
  let tax_total : ℚ := 0
  let total := subtotal - discount_total + tax_total
  { subtotal := pyRound2 subtotal
    discount_total := pyRound2 discount_total
    tax_total := pyRound2 tax_total
    total := pyRound2 total }

/-- Strict lexicographic order on character lists by code point, matching
Python's and the database's ordering of ASCII strings. -/
def charListLt : List Char → List Char → Bool
  | [], [] => false
  | [], _ :: _ => true
  | _ :: _, [] => false
  | a :: as, b :: bs => if a < b then true else if b < a then false else charListLt as bs

/-- Strict lexicographic order on strings. -/
def strLt (a b : String) : Bool := charListLt a.toList b.toList

/-- Test whether p is a literal first part of s (the LIKE "p%" filter). -/
def strHasPfx (p s : String) : Bool := p.toList.isPrefixOf s.toList

/-- The characters after the last dash (Python s.split('-')[-1]); acc holds
the characters of the current field. -/
def afterLastDash (acc : List Char) : List Char → List Char
  | [] => acc
  | c :: rest => if c = '-' then afterLastDash [] rest else afterLastDash (acc ++ [c]) rest

/-- Python int() on a non-negative digit string; none models the ValueError
raised on anything else. -/
def digitsToNat? (l : List Char) : Option Nat :=
  if l = [] then none
  else if l.all (fun c => c.isDigit) then
    some (l.foldl (fun n c => n * 10 + (c.toNat - 48)) 0)
  else none

/-- int(number.split('-')[-1]) from generate_quotation_number. -/
def extractSeq (s : String) : Option Nat := digitsToNat? (afterLastDash [] s.toList)

/-- Python f-string {n:03d}: decimal digits, zero-padded to width 3. -/
def format3 (n : Nat) : String :=
  if n < 10 then "00" ++ toString n
  else if n < 100 then "0" ++ toString n
  else toString n

/-- The lexicographically greatest element of a list of strings, i.e. the
first row of ORDER BY quotation_number DESC. -/
def lexMax? : List String → Option String
  | [] => none
  | s :: rest =>
    match lexMax? rest with
    | none => some s
    | some m => if strLt m s then some s else some m

/-- QuotationService.generate_quotation_number over the list of stored
quotation numbers: keep the numbers with the current year's COT- first part,
take the lexicographically greatest, parse its last dash-separated field as an
integer, add one, and format the result zero-padded to three digits; with no
match the sequence starts at 1.  none models the ValueError int() raises when
the greatest stored number has a non-numeric tail. -/
def generate_quotation_number (stored : List String) (year : Nat) : Option String :=
  let pfx := "COT-" ++ toString year ++ "-"
  match lexMax? (stored.filter (fun s => strHasPfx pfx s)) with
  | none => some (pfx ++ format3 1)
  | some m =>
    match extractSeq m with
    | none => none
    | some k => some (pfx ++ format3 (k + 1))

/-- The largest quotation id in use (models the autoincrement counter). -/
def maxQuotId (l : List QuotationRec) : Nat := l.foldl (fun m q => max m q.id) 0

/-- The largest item id in use (models the autoincrement counter). -/
def maxItemId (l : List QuotationItemRec) : Nat := l.foldl (fun m it => max m it.id) 0

/-- Validated input of quotation creation (schema QuotationCreate). -/
structure QuotationCreateData where
  client_name : String
  client_email : String
  client_phone : Option String
  client_address : Option String
  client_document : Option String
  valid_until : Nat
  notes : Option String
  internal_notes : Option String
  items : List ItemInput
  deriving DecidableEq

/-- The item rows built by the creation loop: each input gets its totals from
calculate_item_totals and the next autoincrement id. -/
def mkItems (qid : Nat) : Nat → List ItemInput → List QuotationItemRec
  | _, [] => []
  | nextId, inp :: rest =>
    let t := calculate_item_totals inp
    { id := nextId
      quotation_id := qid
      product_id := inp.product_id
      product_name := inp.product_name
      product_description := inp.product_description
      product_code := inp.product_code
      quantity := inp.quantity
      unit_price := inp.unit_price
      discount_percentage := inp.discount_percentage
      subtotal := t.subtotal
      discount_amount := t.discount_amount
      total := t.total } :: mkItems qid (nextId + 1) rest

/-- QuotationService.create_quotation: allocate a number, insert the quotation
with status borrador, insert the items with their computed totals, then write
the document totals computed from those items.  Returns the new store, the
created row and its items; none models the exception path (number parse
failure), after which the transaction is rolled back. -/
def create_quotation (db : DB) (data : QuotationCreateData) (user_id year now : Nat) :
    Option (DB × QuotationRec × List QuotationItemRec) :=
  match generate_quotation_number (db.quotations.map (fun q => q.quotation_number)) year with
  | none => none
  | some number =>
    let qid := maxQuotId db.quotations + 1
    let newItems := mkItems qid (maxItemId db.items + 1) data.items
    let totals := calculate_quotation_totals newItems
    let q : QuotationRec :=
      { id := qid
        quotation_number := number
        client_name := data.client_name
        client_email := data.client_email
        client_phone := data.client_phone
        client_address := data.client_address
        client_document := data.client_document
        status := .borrador
        created_at := now
        valid_until := data.valid_until
        subtotal := totals.subtotal
        discount_total := totals.discount_total
        tax_total := totals.tax_total
        total := totals.total
        notes := data.notes
        internal_notes := data.internal_notes
        created_by := user_id }
    some ({ quotations := db.quotations ++ [q], items := db.items ++ newItems }, q, newItems)

/-- The typed failures of the spec's error taxonomy (section 7); internalError
models an unexpected exception surfaced as a 500. -/
inductive ApiError
  | notFound
  | validationError
  | conflict
  | forbidden
  | internalError
  deriving DecidableEq

/-- query(Quotation).filter(Quotation.id == quotation_id).first(). -/
def findQuotation (db : DB) (qid : Nat) : Option QuotationRec :=
  db.quotations.find? (fun q => q.id == qid)

/-- The patch body of the update endpoint (schema QuotationUpdate): none is an
unset field (exclude_unset drops it); for nullable columns a set field carries
an Option value. -/
structure QuotationUpdateData where
  client_name : Option String
  client_email : Option String
  client_phone : Option (Option String)
  client_address : Option (Option String)
  client_document : Option (Option String)
  valid_until : Option Nat
  notes : Option (Option String)
  internal_notes : Option (Option String)
  status : Option QuotationStatusEnum
  items : Option (List ItemInput)
  deriving DecidableEq

/-- The setattr loop of QuotationService.update_quotation: every field present
in the patch (items excluded) is written onto the row, status included. -/
def applyPatch (q : QuotationRec) (d : QuotationUpdateData) : QuotationRec :=
  { q with
    client_name := d.client_name.getD q.client_name
    client_email := d.client_email.getD q.client_email
    client_phone := d.client_phone.getD q.client_phone
    client_address := d.client_address.getD q.client_address
    client_document := d.client_document.getD q.client_document
    valid_until := d.valid_until.getD q.valid_until
    notes := d.notes.getD q.notes
    internal_notes := d.internal_notes.getD q.internal_notes
    status := d.status.getD q.status }

/-- Write an updated row back into the quotations table. -/
def replaceQuotation (db : DB) (qid : Nat) (q : QuotationRec) : DB :=
  { db with quotations := db.quotations.map (fun r => if r.id == qid then q else r) }

/-- QuotationService.update_quotation: find the row (none if absent), patch the
scalar fields, and when items is present delete all existing items of the
quotation, insert the replacement set with computed totals, and recompute the
document totals from the new set. -/
def service_update_quotation (db : DB) (qid : Nat) (d : QuotationUpdateData) :
    Option (DB × QuotationRec) :=
  match findQuotation db qid with
  | none => none
  | some q =>
    let q1 := applyPatch q d
    match d.items with
    | none => some (replaceQuotation db qid q1, q1)
    | some its =>
      let kept := db.items.filter (fun it => !(it.quotation_id == qid))
      let newItems := mkItems qid (maxItemId db.items + 1) its
      let totals := calculate_quotation_totals newItems
      let q2 := { q1 with
        subtotal := totals.subtotal
        discount_total := totals.discount_total
        tax_total := totals.tax_total
        total := totals.total }
      some ({ quotations := (replaceQuotation db qid q2).quotations,
              items := kept ++ newItems }, q2)

/-- Python str.strip(). -/
def trimStr (s : String) : String :=
  String.mk (((s.toList.dropWhile Char.isWhitespace).reverse.dropWhile Char.isWhitespace).reverse)

/-- The update_quotation route (src/routes/quotations.py lines 200-266):
404 when absent, 403 when the caller is not the creator, then the status gate
of line 234 comparing the enum-valued status against the strings "aprobada"
and "rechazada", then the item checks, then the service update. -/
def route_update_quotation (db : DB) (qid user : Nat) (d : QuotationUpdateData) :
    Except ApiError (DB × QuotationRec) :=
  match findQuotation db qid with
  | none => .error .notFound
  | some q =>
    if q.created_by != user then .error .forbidden
    else if pyIn (.enumMember q.status) [.str "aprobada", .str "rechazada"] then
      .error .conflict
    else
      match d.items with
      | some its =>
        if its.length = 0 then .error .validationError
        else if its.any (fun i => decide (i.quantity ≤ 0) || decide (i.unit_price ≤ 0)) then
          .error .validationError
        else
          match service_update_quotation db qid d with
          | some r => .ok r
          | none => .error .internalError
      | none =>
        match service_update_quotation db qid d with
        | some r => .ok r
        | none => .error .internalError

/-- The update_quotation_status route (src/routes/quotations.py lines 350-411):
404 when absent, then the transition test against the string-keyed
valid_transitions dict, then a service update carrying the new status and an
appended audit line in internal_notes. -/
def update_quotation_status (db : DB) (qid : Nat) (new_status : QuotationStatusEnum)
    (notes : Option String) (userName nowStr : String) :
    Except ApiError (DB × QuotationRec) :=
  match findQuotation db qid with
  | none => .error .notFound
  | some q =>
    if transitionAllowed q.status new_status then
      let noteText := trimStr ((q.internal_notes.getD "") ++ "\n" ++ nowStr ++
        ": Estado cambiado a " ++ statusStr new_status ++ " por " ++ userName ++ ". " ++
        (notes.getD ""))
      let upd : QuotationUpdateData :=
        { client_name := none, client_email := none, client_phone := none,
          client_address := none, client_document := none, valid_until := none,
          notes := none, internal_notes := some (some noteText),
          status := some new_status, items := none }
      match service_update_quotation db qid upd with
      | some r => .ok r
      | none => .error .internalError
    else .error .conflict

/-- QuotationService.delete_quotation: false when absent or when the status is
not borrador (store untouched); otherwise the quotation's items and then the
quotation itself are removed. -/
def delete_quotation_service (db : DB) (qid : Nat) : Bool × DB :=
  match findQuotation db qid with
  | none => (false, db)
  | some q =>
    if q.status != QuotationStatusEnum.borrador then (false, db)
    else (true,
      { quotations := db.quotations.filter (fun r => !(r.id == qid)),
        items := db.items.filter (fun it => !(it.quotation_id == qid)) })

/-- The delete_quotation route (src/routes/quotations.py lines 268-319):
404 when absent, 403 when the caller is not the creator, then the service
delete; a false service result surfaces as the only-draft conflict. -/
def route_delete_quotation (db : DB) (qid user : Nat) : Except ApiError DB :=
  match findQuotation db qid with
  | none => .error .notFound
  | some q =>
    if q.created_by != user then .error .forbidden
    else
      match delete_quotation_service db qid with
      | (true, db2) => .ok db2
      | (false, _) => .error .conflict

/-- The duplicate_quotation route (src/routes/quotations.py lines 413-475):
404 when absent; the original's client fields, validity and items are copied
into a QuotationCreate body with a prepended duplication note, and that body is
re-validated by the pydantic schema before create_quotation runs.  Of the
schema's rules the two that can reject a faithful copy of a stored row are
modelled: items must be non-empty (min_items=1) and validate_valid_until
requires a strictly future date; the remaining field-format constraints can
only reject more inputs, never fewer. -/
def duplicate_quotation (db : DB) (qid user today year now : Nat) :
    Except ApiError (DB × QuotationRec × List QuotationItemRec) :=
  match findQuotation db qid with
  | none => .error .notFound
  | some orig =>
    let origItems := db.items.filter (fun it => it.quotation_id == orig.id)
    let items_data := origItems.map (fun it =>
      ({ product_id := it.product_id
         product_name := it.product_name
         product_description := it.product_description
         product_code := it.product_code
         quantity := it.quantity
         unit_price := it.unit_price
         discount_percentage := it.discount_percentage } : ItemInput))
    let data : QuotationCreateData :=
      { client_name := orig.client_name
        client_email := orig.client_email
        client_phone := orig.client_phone
        client_address := orig.client_address
        client_document := orig.client_document
        valid_until := orig.valid_until
        notes := some (trimStr ("Duplicado de " ++ orig.quotation_number ++ "\n" ++
          (orig.notes.getD "")))
        internal_notes := none
        items := items_data }
    if data.items.length = 0 then .error .validationError
    else if data.valid_until ≤ today then .error .validationError
    else
      match create_quotation db data user year now with
      | some r => .ok r
      | none => .error .internalError

/-- Lowercased characters of a string (ASCII case fold, modelling lower()). -/
def lowerChars (s : String) : List Char := s.toList.map Char.toLower

/-- Contiguous-subsequence test: does hay contain needle? -/
def containsSeq (needle : List Char) : List Char → Bool
  | [] => needle.isEmpty
  | c :: t => needle.isPrefixOf (c :: t) || containsSeq needle t

/-- The ilike "%pat%" filter: case-insensitive substring containment. -/
def ilikeContains (pat field : String) : Bool :=
  containsSeq (lowerChars pat) (lowerChars field)

/-- The filter/pagination parameters (schema QuotationFilters); the schema
bounds page to at least 1 and limit to 1..100. -/
structure QuotationFilters where
  quotation_number : Option String
  client_name : Option String
  status : Option QuotationStatusEnum
  start_date : Option Nat
  end_date : Option Nat
  min_amount : Option ℚ
  max_amount : Option ℚ
  page : Nat
  limit : Nat
  deriving DecidableEq

/-- The conjunction of the seven optional filters of
get_quotations_with_filters.  Each is applied only when its value is truthy in
Python: an unset filter, an empty string, or a 0 amount is a no-op. -/
def passesFilters (f : QuotationFilters) (q : QuotationRec) : Bool :=
  (match f.quotation_number with
   | none => true
   | some s => if s = "" then true else ilikeContains s q.quotation_number) &&
  (match f.client_name with
   | none => true
   | some s => if s = "" then true else ilikeContains s q.client_name) &&
  (match f.status with
   | none => true
   | some st => q.status == st) &&
  (match f.start_date with
   | none => true
   | some d => decide (d ≤ q.created_at)) &&
  (match f.end_date with
   | none => true
   | some d => decide (q.created_at ≤ d)) &&
  (match f.min_amount with
   | none => true
   | some a => if a = 0 then true else decide (a ≤ q.total)) &&
  (match f.max_amount with
   | none => true
   | some a => if a = 0 then true else decide (q.total ≤ a))

/-- The ORDER BY created_at DESC relation.  The query has no secondary sort
key, so the order of rows with equal created_at is left to the database; the
model realizes it as a stable sort over storage order. -/
def createdDesc (a b : QuotationRec) : Prop := b.created_at ≤ a.created_at

instance : DecidableRel createdDesc := fun a b => Nat.decLe b.created_at a.created_at

instance : IsTotal QuotationRec createdDesc :=
  ⟨fun a b => (Nat.le_total b.created_at a.created_at)⟩

instance : IsTrans QuotationRec createdDesc :=
  ⟨fun _ _ _ hab hbc => Nat.le_trans hbc hab⟩

/-- The response envelope of get_quotations_with_filters. -/
structure QuotationListResult where
  quotations : List QuotationRec
  total_count : Nat
  total_pages : Nat
  current_page : Nat
  per_page : Nat
  has_next : Bool
  has_prev : Bool
  deriving DecidableEq

/-- QuotationService.get_quotations_with_filters: apply the truthy filters,
count the filtered rows, sort by created_at descending, slice with
offset = (page-1)*limit and the limit, and compute
total_pages = ceil(total_count/limit) (exact, with no minimum), plus the
next/previous flags. -/
def get_quotations_with_filters (db : DB) (f : QuotationFilters) : QuotationListResult :=
  let filtered := db.quotations.filter (passesFilters f)
  let total_count := filtered.length
  let offset := (f.page - 1) * f.limit
  let sorted := List.insertionSort createdDesc filtered
  let slice := (sorted.drop offset).take f.limit
  let total_pages := (total_count + f.limit - 1) / f.limit
  { quotations := slice
    total_count := total_count
    total_pages := total_pages
    current_page := f.page
    per_page := f.limit
    has_next := decide (f.page < total_pages)
    has_prev := decide (1 < f.page) }

/-- A stored quotation used as concrete test data. -/
def baseQ : QuotationRec :=
  { id := 1, quotation_number := "COT-2026-001", client_name := "Cliente Uno",
    client_email := "c@x.co", client_phone := none, client_address := none,
    client_document := none, status := .borrador, created_at := 10,
    valid_until := 300, subtotal := 200, discount_total := 20, tax_total := 0,
    total := 180, notes := none, internal_notes := none, created_by := 7 }

/-- A store holding one draft quotation. -/
def dbDraft : DB := { quotations := [baseQ], items := [] }

/-- A store holding one approved quotation. -/
def dbApproved : DB := { quotations := [{ baseQ with status := .aprobada }], items := [] }

/-- A store holding one sent quotation. -/
def dbSent : DB := { quotations := [{ baseQ with status := .enviada }], items := [] }

/-- A store holding one quotation whose validity date has passed. -/
def dbExpired : DB := { quotations := [{ baseQ with valid_until := 100 }], items := [] }

/-- The all-unset patch body. -/
def emptyUpd : QuotationUpdateData :=
  { client_name := none, client_email := none, client_phone := none,
    client_address := none, client_document := none, valid_until := none,
    notes := none, internal_notes := none, status := none, items := none }

/-- A patch that only edits the client-facing notes. -/
def notesUpd : QuotationUpdateData := { emptyUpd with notes := some (some "nuevo texto") }

/-- A patch that only sets the status to aprobada. -/
def statusUpd : QuotationUpdateData := { emptyUpd with status := some .aprobada }

/-- The empty store. -/
def dbEmpty : DB := { quotations := [], items := [] }

/-- Two quotations sharing one created_at instant, stored in ascending id
order. -/
def dbTie : DB :=
  { quotations := [{ baseQ with id := 1, created_at := 5 },
                   { baseQ with id := 2, created_at := 5, quotation_number := "COT-2026-002" }],
    items := [] }

/-- The default listing request: no filters, page 1, limit 10. -/
def noFilters : QuotationFilters :=
  { quotation_number := none, client_name := none, status := none,
    start_date := none, end_date := none, min_amount := none, max_amount := none,
    page := 1, limit := 10 }

/-- The spec's worked scenario item: quantity 2, unit price 100, discount 10. -/
def scenarioItem : ItemInput :=
  { product_id := none, product_name := "Widget", product_description := none,
    product_code := none, quantity := 2, unit_price := 100, discount_percentage := 10 }

/-- Creation input carrying the scenario item. -/
def scenarioData : QuotationCreateData :=
  { client_name := "Cliente Uno", client_email := "c@x.co", client_phone := none,
    client_address := none, client_document := none, valid_until := 300,
    notes := none, internal_notes := none, items := [scenarioItem] }

/-- The item row the scenario creation stores: totals 200.00, 20.00, 180.00. -/
def scenarioItemRec : QuotationItemRec :=
  ⟨1, 1, none, "Widget", none, none, 2, 100, 10, 200, 20, 180⟩

/-- The quotation row the scenario creation stores: number COT-2026-001,
subtotal 200.00, discount total 20.00, tax 0, total 180.00. -/
def scenarioQuot : QuotationRec :=
  ⟨1, "COT-2026-001", "Cliente Uno", "c@x.co", none, none, none, .borrador, 0, 300,
   200, 20, 0, 180, none, none, 7⟩

/-- The store after the scenario creation. -/
def scenarioDB : DB := ⟨[scenarioQuot], [scenarioItemRec]⟩

/-- An item input on which per-item rounding and document-level rounding
disagree: quantity 1, unit price 1.011, discount 49 percent. -/
def mismatchItem : ItemInput := ⟨none, "X", none, none, 1, 1011/1000, 49⟩

/-- Creation input carrying that single item. -/
def mismatchData : QuotationCreateData :=
  { client_name := "Cliente Uno", client_email := "c@x.co", client_phone := none,
    client_address := none, client_document := none, valid_until := 300,
    notes := none, internal_notes := none, items := [mismatchItem] }

/-- The stored item row for that input: subtotal 1.01, discount 0.50 and
total 0.52 (= 13/25), each rounded from the unrounded intermediates. -/
def mismatchItemRec : QuotationItemRec :=
  ⟨1, 1, none, "X", none, none, 1, 1011/1000, 49, 101/100, 1/2, 13/25⟩

/-- The stored quotation for that input: subtotal 1.01, discount total 0.50,
tax 0, and total round(1.01 - 0.50, 2) = 0.51 — one cent below the item's own
stored total of 0.52. -/
def mismatchQuot : QuotationRec :=
  ⟨1, "COT-2026-001", "Cliente Uno", "c@x.co", none, none, none, .borrador, 0, 300,
   101/100, 1/2, 0, 51/100, none, none, 7⟩

/-- The store after creating from the mismatch input. -/
def mismatchDB : DB := ⟨[mismatchQuot], [mismatchItemRec]⟩

/-- Rounding an integer is the identity. -/
theorem roundHalfEven_intCast (z : ℤ) : roundHalfEven (z : ℚ) = z := by
  unfold roundHalfEven
  rw [Int.floor_intCast]
  simp

/-- A whole number of cents is unchanged by round(x, 2). -/
theorem pyRound2_cents {x : ℚ} (h : IsCents x) : pyRound2 x = x := by
  obtain ⟨z, hz⟩ := h
  unfold pyRound2
  rw [hz, roundHalfEven_intCast, ← hz]
  field_simp

/-- round(x, 2) always returns a whole number of cents. -/
theorem pyRound2_isCents (x : ℚ) : IsCents (pyRound2 x) := by
  refine ⟨roundHalfEven (x * 100), ?_⟩
  unfold pyRound2
  field_simp

/-- Evaluation rule for roundHalfEven below the midpoint. -/
theorem roundHalfEven_of_lt (x : ℚ) (n : ℤ) (h1 : (n:ℚ) ≤ x) (h2 : x - n < 1/2) :
    roundHalfEven x = n := by
  have hf : ⌊x⌋ = n := by
    rw [Int.floor_eq_iff]
    refine ⟨h1, ?_⟩
    have : ((n:ℚ) + 1) - n = 1 := by ring
    linarith
  unfold roundHalfEven
  rw [hf]
  exact if_pos h2

/-- Evaluation rule for roundHalfEven above the midpoint. -/
theorem roundHalfEven_of_gt (x : ℚ) (n : ℤ) (h1 : (n:ℚ) ≤ x) (h2 : x - n > 1/2)
    (h3 : x < n + 1) : roundHalfEven x = n + 1 := by
  have hf : ⌊x⌋ = n := by
    rw [Int.floor_eq_iff]
    exact ⟨h1, by exact_mod_cast h3⟩
  unfold roundHalfEven
  rw [hf]
  rw [if_neg (by linarith), if_pos (by linarith)]

/-- The sum of whole-cent values is a whole-cent value. -/
theorem isCents_sum (l : List ℚ) (h : ∀ x ∈ l, IsCents x) : IsCents l.sum := by
  induction l with
  | nil => exact ⟨0, by simp⟩
  | cons a t ih =>
    obtain ⟨z1, hz1⟩ := h a (List.mem_cons_self a t)
    obtain ⟨z2, hz2⟩ := ih (fun x hx => h x (List.mem_cons_of_mem a hx))
    refine ⟨z1 + z2, ?_⟩
    rw [List.sum_cons, add_mul, hz1, hz2]
    push_cast
    ring

/-- Cents are closed under the document-total combination. -/
theorem isCents_comb {a b c : ℚ} (ha : IsCents a) (hb : IsCents b) (hc : IsCents c) :
    IsCents (a - b + c) := by
  obtain ⟨z1, h1⟩ := ha
  obtain ⟨z2, h2⟩ := hb
  obtain ⟨z3, h3⟩ := hc
  refine ⟨z1 - z2 + z3, ?_⟩
  rw [add_mul, sub_mul, h1, h2, h3]
  push_cast
  ring

/-- Every item row the creation loop builds carries whole-cent totals and the
parent quotation id. -/
theorem mkItems_fields (qid : Nat) :
    ∀ (nid : Nat) (inputs : List ItemInput), ∀ it ∈ mkItems qid nid inputs,
      it.quotation_id = qid ∧ IsCents it.subtotal ∧ IsCents it.discount_amount := by
  intro nid inputs
  induction inputs generalizing nid with
  | nil => intro it hit; simp [mkItems] at hit
  | cons a t ih =>
    intro it hit
    rw [mkItems] at hit
    rcases List.mem_cons.mp hit with h | h
    · subst h
      exact ⟨rfl, pyRound2_isCents _, pyRound2_isCents _⟩
    · exact ih _ it h

/-- C1 counterexample: at quantity 1, unit price 1011/1000 (= 1.011) and
discount 49 — an input satisfying all of the claim's constraints — the code
returns discountAmount = 0.50, while the claim's formula
round(round(quantity*unitPrice, 2) * discountPercentage/100, 2), which chains
the rounding through the already-rounded subtotal, yields 0.49.  The code
derives the discount from the unrounded subtotal, so the claim is false. -/
theorem item_totals_chained_rounding_false :
    ((0:ℚ) < 1 ∧ (0:ℚ) < 1011/1000 ∧ (0:ℚ) ≤ 49 ∧ (49:ℚ) ≤ 100)
    ∧ (calculate_item_totals ⟨none, "X", none, none, 1, 1011/1000, 49⟩).discount_amount = 1/2
    ∧ pyRound2 (pyRound2 ((1:ℚ) * (1011/1000)) * (49/100)) = 49/100
    ∧ ((1:ℚ)/2) ≠ 49/100 := by
  refine ⟨by norm_num, ?_, ?_, by norm_num⟩
  · show pyRound2 ((1:ℚ) * (1011/1000) * ((49:ℚ)/100)) = 1/2
    unfold pyRound2
    rw [roundHalfEven_of_gt ((1:ℚ) * (1011/1000) * ((49:ℚ)/100) * 100) 49
      (by norm_num) (by norm_num) (by norm_num)]
    norm_num
  · have hin : pyRound2 ((1:ℚ) * (1011/1000)) = 101/100 := by
      unfold pyRound2
      rw [roundHalfEven_of_lt ((1:ℚ) * (1011/1000) * 100) 101 (by norm_num) (by norm_num)]
      norm_num
    rw [hin]
    unfold pyRound2
    rw [roundHalfEven_of_lt ((101:ℚ)/100 * (49/100) * 100) 49 (by norm_num) (by norm_num)]
    norm_num

/-- C1 amended: for every item input with quantity > 0, unit price > 0 and
discount between 0 and 100, calculate_item_totals returns
subtotal = round(quantity*unitPrice, 2),
discountAmount = round(quantity*unitPrice * discountPercentage/100, 2)
computed from the UNROUNDED product, and
total = round(quantity*unitPrice - quantity*unitPrice*discountPercentage/100, 2):
each returned field is rounded once, from unrounded intermediates. -/
theorem item_totals_rounds_raw_values (i : ItemInput)
    (h1 : 0 < i.quantity) (h2 : 0 < i.unit_price)
    (h3 : 0 ≤ i.discount_percentage) (h4 : i.discount_percentage ≤ 100) :
    calculate_item_totals i =
      { subtotal := pyRound2 (i.quantity * i.unit_price)
        discount_amount := pyRound2 (i.quantity * i.unit_price * (i.discount_percentage / 100))
        total := pyRound2 (i.quantity * i.unit_price -
          i.quantity * i.unit_price * (i.discount_percentage / 100)) } := rfl

/-- C1 witness: the spec's worked scenario (quantity 2, unit price 100,
discount 10) evaluates to subtotal 200.00, discount 20.00, total 180.00. -/
theorem item_totals_rounds_raw_values_witness :
    calculate_item_totals scenarioItem =
      { subtotal := 200, discount_amount := 20, total := 180 } := by
  rw [item_totals_rounds_raw_values scenarioItem (by norm_num [scenarioItem])
    (by norm_num [scenarioItem]) (by norm_num [scenarioItem]) (by norm_num [scenarioItem])]
  have e1 : pyRound2 ((200:ℚ)) = 200 := by rw [pyRound2_cents ⟨20000, by norm_num⟩]
  have e2 : pyRound2 ((20:ℚ)) = 20 := by rw [pyRound2_cents ⟨2000, by norm_num⟩]
  have e3 : pyRound2 ((180:ℚ)) = 180 := by rw [pyRound2_cents ⟨18000, by norm_num⟩]
  norm_num [scenarioItem, e1, e2, e3]

/-- Rounding zero gives zero. -/
theorem pyRound2_zero : pyRound2 0 = 0 := pyRound2_cents ⟨0, by norm_num⟩

/-- Over items whose stored subtotal and discount_amount are whole cents, the
document totals are the plain sums, tax is zero, and the returned total equals
subtotal - discountTotal + taxTotal of the returned (rounded) aggregates. -/
theorem calculate_quotation_totals_cents (L : List QuotationItemRec)
    (h : ∀ it ∈ L, IsCents it.subtotal ∧ IsCents it.discount_amount) :
    (calculate_quotation_totals L).tax_total = 0
    ∧ (calculate_quotation_totals L).subtotal =
        pyRound2 ((L.map (fun it => it.subtotal)).sum)
    ∧ (calculate_quotation_totals L).discount_total =
        pyRound2 ((L.map (fun it => it.discount_amount)).sum)
    ∧ (calculate_quotation_totals L).subtotal = (L.map (fun it => it.subtotal)).sum
    ∧ (calculate_quotation_totals L).discount_total =
        (L.map (fun it => it.discount_amount)).sum
    ∧ (calculate_quotation_totals L).total =
        (calculate_quotation_totals L).subtotal -
        (calculate_quotation_totals L).discount_total +
        (calculate_quotation_totals L).tax_total := by
  have hS : IsCents ((L.map (fun it => it.subtotal)).sum) := by
    refine isCents_sum _ ?_
    intro x hx
    obtain ⟨it, hit, rfl⟩ := List.mem_map.mp hx
    exact (h it hit).1
  have hD : IsCents ((L.map (fun it => it.discount_amount)).sum) := by
    refine isCents_sum _ ?_
    intro x hx
    obtain ⟨it, hit, rfl⟩ := List.mem_map.mp hx
    exact (h it hit).2
  have h0 : IsCents (0 : ℚ) := ⟨0, by norm_num⟩
  refine ⟨pyRound2_zero, rfl, rfl, pyRound2_cents hS, pyRound2_cents hD, ?_⟩
  show pyRound2 ((L.map (fun it => it.subtotal)).sum -
      (L.map (fun it => it.discount_amount)).sum + 0) =
    pyRound2 ((L.map (fun it => it.subtotal)).sum) -
    pyRound2 ((L.map (fun it => it.discount_amount)).sum) + pyRound2 0
  rw [pyRound2_cents hS, pyRound2_cents hD, pyRound2_zero,
    pyRound2_cents (isCents_comb hS hD h0)]

/-- C4 amended: every quotation that create_quotation produces satisfies
taxTotal = 0, subtotal = round of the sum of its items' stored subtotals (and,
those being whole cents, the plain sum), discountTotal likewise, and
total = subtotal - discountTotal + taxTotal over the stored aggregates; all
its items point back to it. -/
theorem created_quotation_totals_consistent
    (db : DB) (data : QuotationCreateData) (user year now : Nat)
    (db2 : DB) (q : QuotationRec) (its : List QuotationItemRec)
    (h : create_quotation db data user year now = some (db2, q, its)) :
    q.tax_total = 0
    ∧ q.subtotal = pyRound2 ((its.map (fun it => it.subtotal)).sum)
    ∧ q.discount_total = pyRound2 ((its.map (fun it => it.discount_amount)).sum)
    ∧ q.subtotal = (its.map (fun it => it.subtotal)).sum
    ∧ q.discount_total = (its.map (fun it => it.discount_amount)).sum
    ∧ q.total = q.subtotal - q.discount_total + q.tax_total
    ∧ (∀ it ∈ its, it.quotation_id = q.id) := by
  unfold create_quotation at h
  cases hg : generate_quotation_number (db.quotations.map (fun r => r.quotation_number)) year with
  | none => rw [hg] at h; exact absurd h (by simp)
  | some number =>
    rw [hg] at h
    simp only [Option.some.injEq, Prod.mk.injEq] at h
    obtain ⟨-, rfl, rfl⟩ := h
    have hfields := mkItems_fields (maxQuotId db.quotations + 1) (maxItemId db.items + 1)
      data.items
    have hc := calculate_quotation_totals_cents
      (mkItems (maxQuotId db.quotations + 1) (maxItemId db.items + 1) data.items)
      (fun it hit => (hfields it hit).2)
    exact ⟨hc.1, hc.2.1, hc.2.2.1, hc.2.2.2.1, hc.2.2.2.2.1, hc.2.2.2.2.2,
      fun it hit => (hfields it hit).1⟩

/-- C4 witness: creating from the empty store with the scenario item yields
the concrete stored quotation COT-2026-001 with subtotal 200, discount total
20, tax 0 and total 180, and the invariant holds on it. -/
theorem created_quotation_totals_consistent_witness :
    scenarioQuot.tax_total = 0
    ∧ scenarioQuot.subtotal = (([scenarioItemRec].map (fun it => it.subtotal)).sum)
    ∧ scenarioQuot.total =
        scenarioQuot.subtotal - scenarioQuot.discount_total + scenarioQuot.tax_total := by
  have p200 : pyRound2 ((200:ℚ)) = 200 := pyRound2_cents ⟨20000, by norm_num⟩
  have p20 : pyRound2 ((20:ℚ)) = 20 := pyRound2_cents ⟨2000, by norm_num⟩
  have p180 : pyRound2 ((180:ℚ)) = 180 := pyRound2_cents ⟨18000, by norm_num⟩
  have p0 : pyRound2 ((0:ℚ)) = 0 := pyRound2_zero
  have hg : generate_quotation_number
      (dbEmpty.quotations.map (fun r => r.quotation_number)) 2026 = some "COT-2026-001" := by
    decide
  have hc : create_quotation dbEmpty scenarioData 7 2026 0 =
      some (scenarioDB, scenarioQuot, [scenarioItemRec]) := by
    unfold create_quotation
    rw [hg]
    norm_num [dbEmpty, scenarioData, scenarioDB, scenarioQuot, scenarioItemRec,
      scenarioItem, mkItems, calculate_item_totals, calculate_quotation_totals,
      maxQuotId, maxItemId, List.foldl, p200, p20, p180, p0]
  have h := created_quotation_totals_consistent dbEmpty scenarioData 7 2026 0
    scenarioDB scenarioQuot [scenarioItemRec] hc
  exact ⟨h.1, h.2.2.2.1, h.2.2.2.2.2.1⟩

/-- The transition test of the route is identically false: the dict keys are
strings while the looked-up current status is a plain enum member, so the get
falls through to the empty default list for every status. -/
theorem transitionAllowed_always_false :
    ∀ cur ns, transitionAllowed cur ns = false := by decide

/-- C2 (code bug): update_quotation_status rejects EVERY transition with the
invalid-transition error — including draft to sent, which the route's own
docstring, its valid_transitions values and the spec all allow — because the
current status (an enum member) is looked up among string dict keys and never
matches.  The second conjunct shows every status change on an existing
quotation fails with the conflict error; the third records that the spec's
table allows draft to sent. -/
theorem status_change_rejects_all_transitions :
    (∀ cur ns, transitionAllowed cur ns = false)
    ∧ (∀ (db : DB) (qid : Nat) (ns : QuotationStatusEnum) (notes : Option String)
        (userName nowStr : String) (q : QuotationRec), findQuotation db qid = some q →
        update_quotation_status db qid ns notes userName nowStr =
          .error ApiError.conflict)
    ∧ specAllowedTransition .borrador .enviada = true := by
  refine ⟨transitionAllowed_always_false, ?_, by decide⟩
  intro db qid ns notes userName nowStr q hf
  unfold update_quotation_status
  rw [hf]
  simp [transitionAllowed_always_false]

/-- C2 witness: on a store holding one draft quotation, the draft-to-sent
change fails with the conflict error. -/
theorem status_change_rejects_all_transitions_witness :
    update_quotation_status dbDraft 1 .enviada none "user" "now" =
      .error ApiError.conflict :=
  status_change_rejects_all_transitions.2.1 dbDraft 1 .enviada none "user" "now" baseQ rfl

/-- The status gate of the update route is identically false: the row's enum
status is compared against the strings "aprobada" and "rechazada". -/
theorem updateGate_always_false :
    ∀ st, pyIn (PyVal.enumMember st) [PyVal.str "aprobada", PyVal.str "rechazada"] = false := by
  decide

/-- C5 (code bug): the editable-fields gate of the update route never fires,
so an update of an approved quotation by its creator is PERMITTED and applied,
contrary to the claim (and the route's own docstring) that it is refused with
a conflict error; the test compares the enum-valued status against strings. -/
theorem update_gate_never_refuses :
    (∀ st, pyIn (PyVal.enumMember st) [PyVal.str "aprobada", PyVal.str "rechazada"] = false)
    ∧ (∀ (db : DB) (qid user : Nat) (d : QuotationUpdateData) (q : QuotationRec),
        findQuotation db qid = some q → q.created_by = user →
        q.status = QuotationStatusEnum.aprobada → d.items = none →
        route_update_quotation db qid user d =
          .ok (replaceQuotation db qid (applyPatch q d), applyPatch q d)) := by
  refine ⟨updateGate_always_false, ?_⟩
  intro db qid user d q hf hcb hst hitems
  subst hcb
  unfold route_update_quotation service_update_quotation
  rw [hf, hitems]
  simp [bne_self_eq_false, updateGate_always_false, hf]

/-- C5 witness: the creator's notes-only update of an approved quotation goes
through and returns the patched row. -/
theorem update_gate_never_refuses_witness :
    route_update_quotation dbApproved 1 7 notesUpd =
      .ok (replaceQuotation dbApproved 1 (applyPatch { baseQ with status := .aprobada } notesUpd),
        applyPatch { baseQ with status := .aprobada } notesUpd) :=
  update_gate_never_refuses.2 dbApproved 1 7 notesUpd { baseQ with status := .aprobada }
    rfl rfl rfl rfl

/-- C9: the service-level update writes every present patch field onto the
row with no transition check, so a present status is stored unconditionally;
in particular the generic update path can move a draft quotation straight to
aprobada, which the state machine table forbids. -/
theorem service_update_sets_status_unconditionally :
    ∀ (db : DB) (qid : Nat) (d : QuotationUpdateData) (q : QuotationRec)
      (s : QuotationStatusEnum), findQuotation db qid = some q → d.status = some s →
      ∃ db2 q2, service_update_quotation db qid d = some (db2, q2) ∧ q2.status = s := by
  intro db qid d q s hf hs
  unfold service_update_quotation
  rw [hf]
  cases hi : d.items with
  | none => simp only [hi]; exact ⟨_, _, rfl, by simp [applyPatch, hs]⟩
  | some its => simp only [hi]; exact ⟨_, _, rfl, by simp [applyPatch, hs]⟩

/-- C9 witness: a status-only patch moves the draft quotation to aprobada even
though the spec's transition table has no draft-to-approved edge. -/
theorem service_update_sets_status_unconditionally_witness :
    (∃ db2 q2, service_update_quotation dbDraft 1 statusUpd = some (db2, q2)
      ∧ q2.status = QuotationStatusEnum.aprobada)
    ∧ specAllowedTransition .borrador .aprobada = false :=
  ⟨service_update_sets_status_unconditionally dbDraft 1 statusUpd baseQ .aprobada rfl rfl,
   by decide⟩

/-- C6: the delete operation fails with not-found when no quotation has the
id; on an existing quotation owned by the caller it fails with the conflict
error and leaves the store untouched whenever the status is not borrador, and
when the status is borrador it succeeds, removing the quotation row and every
item row of that quotation. -/
theorem delete_quotation_gating :
    ∀ (db : DB) (qid user : Nat),
    (findQuotation db qid = none →
      route_delete_quotation db qid user = .error ApiError.notFound)
    ∧ (∀ q, findQuotation db qid = some q → q.created_by = user →
        ((q.status ≠ .borrador →
            route_delete_quotation db qid user = .error ApiError.conflict
            ∧ delete_quotation_service db qid = (false, db))
         ∧ (q.status = .borrador →
            route_delete_quotation db qid user =
              .ok { quotations := db.quotations.filter (fun r => !(r.id == qid)),
                    items := db.items.filter (fun it => !(it.quotation_id == qid)) }
            ∧ (∀ r ∈ db.quotations.filter (fun r => !(r.id == qid)), r.id ≠ qid)
            ∧ (∀ it ∈ db.items.filter (fun it => !(it.quotation_id == qid)),
                it.quotation_id ≠ qid)))) := by
  intro db qid user
  constructor
  · intro h
    unfold route_delete_quotation
    rw [h]
  · intro q hf hcb
    constructor
    · intro hst
      have hner : (q.status != QuotationStatusEnum.borrador) = true := bne_iff_ne.mpr hst
      have hserv : delete_quotation_service db qid = (false, db) := by
        unfold delete_quotation_service
        rw [hf]
        simp [hner]
      constructor
      · unfold route_delete_quotation
        rw [hf]
        subst hcb
        simp [bne_self_eq_false, hserv]
      · exact hserv
    · intro hst
      have hner : (q.status != QuotationStatusEnum.borrador) = false := by
        rw [hst]; exact bne_self_eq_false _
      have hserv : delete_quotation_service db qid =
          (true, { quotations := db.quotations.filter (fun r => !(r.id == qid)),
                   items := db.items.filter (fun it => !(it.quotation_id == qid)) }) := by
        unfold delete_quotation_service
        rw [hf]
        simp [hner]
      refine ⟨?_, ?_, ?_⟩
      · unfold route_delete_quotation
        rw [hf]
        subst hcb
        simp [bne_self_eq_false, hserv]
      · intro r hr
        rw [List.mem_filter] at hr
        simpa using hr.2
      · intro it hit
        rw [List.mem_filter] at hit
        simpa using hit.2

/-- C6 witness: deleting the sent quotation fails with the conflict error and
the store is unchanged. -/
theorem delete_quotation_gating_witness :
    route_delete_quotation dbSent 1 7 = .error ApiError.conflict
    ∧ delete_quotation_service dbSent 1 = (false, dbSent) :=
  ((delete_quotation_gating dbSent 1 7).2 { baseQ with status := .enviada } rfl rfl).1
    (by decide)

/-- C10: duplicating a quotation whose valid_until is not strictly after the
current date fails with the validation error (the copied validity date is
re-validated by the QuotationCreate rule requiring a strictly future date)
and reaches no creation step. -/
theorem duplicate_expired_rejected :
    ∀ (db : DB) (qid user today year now : Nat) (q : QuotationRec),
      findQuotation db qid = some q → q.valid_until ≤ today →
      duplicate_quotation db qid user today year now = .error ApiError.validationError := by
  intro db qid user today year now q hf hexp
  simp only [duplicate_quotation, hf]
  split_ifs with h1
  · rfl
  · rfl

/-- C10 witness: duplicating the expired quotation (valid until day 100, on
day 200) fails with the validation error. -/
theorem duplicate_expired_rejected_witness :
    duplicate_quotation dbExpired 1 9 200 2026 0 = .error ApiError.validationError :=
  duplicate_expired_rejected dbExpired 1 9 200 2026 0 { baseQ with valid_until := 100 }
    rfl (by norm_num)

/-- The strict lexicographic order is irreflexive. -/
theorem charListLt_irrefl : ∀ l : List Char, charListLt l l = false := by
  intro l
  induction l with
  | nil => rfl
  | cons a t ih => simp [charListLt, lt_self_iff_false, ih]

/-- The strict lexicographic order is transitive. -/
theorem charListLt_trans :
    ∀ a b c : List Char, charListLt a b = true → charListLt b c = true →
      charListLt a c = true := by
  intro a
  induction a with
  | nil =>
    intro b c hab hbc
    cases b with
    | nil => simp [charListLt] at hab
    | cons y ys =>
      cases c with
      | nil => simp [charListLt] at hbc
      | cons z zs => rfl
  | cons x xs ih =>
    intro b c hab hbc
    cases b with
    | nil => simp [charListLt] at hab
    | cons y ys =>
      cases c with
      | nil => simp [charListLt] at hbc
      | cons z zs =>
        rw [charListLt] at hab hbc ⊢
        by_cases h1 : x < y
        · by_cases h2 : y < z
          · rw [if_pos (lt_trans h1 h2)]
          · by_cases h3 : z < y
            · rw [if_neg h2, if_pos h3] at hbc
              exact absurd hbc (by simp)
            · have hyz : y = z := le_antisymm (not_lt.mp h3) (not_lt.mp h2)
              subst hyz
              rw [if_pos h1]
        · by_cases h4 : y < x
          · rw [if_neg h1, if_pos h4] at hab
            exact absurd hab (by simp)
          · have hxy : x = y := le_antisymm (not_lt.mp h4) (not_lt.mp h1)
            subst hxy
            rw [if_neg h1, if_neg h4] at hab
            by_cases h2 : x < z
            · rw [if_pos h2]
            · by_cases h3 : z < x
              · rw [if_neg h2, if_pos h3] at hbc
                exact absurd hbc (by simp)
              · have hxz : x = z := le_antisymm (not_lt.mp h3) (not_lt.mp h2)
                subst hxz
                rw [if_neg h2, if_neg h3] at hbc ⊢
                exact ih ys zs hab hbc

/-- Any two character lists are comparable or equal. -/
theorem charListLt_connex :
    ∀ a b : List Char, charListLt a b = true ∨ charListLt b a = true ∨ a = b := by
  intro a
  induction a with
  | nil =>
    intro b
    cases b with
    | nil => right; right; rfl
    | cons y ys => left; rfl
  | cons x xs ih =>
    intro b
    cases b with
    | nil => right; left; rfl
    | cons y ys =>
      rcases lt_trichotomy x y with h | h | h
      · left; simp [charListLt, h]
      · subst h
        rcases ih ys with h2 | h2 | h2
        · left; simp [charListLt, lt_self_iff_false, h2]
        · right; left; simp [charListLt, lt_self_iff_false, h2]
        · right; right; rw [h2]
      · right; left; simp [charListLt, h]

/-- strLt is irreflexive. -/
theorem strLt_irrefl (s : String) : strLt s s = false := charListLt_irrefl _

/-- strLt is transitive. -/
theorem strLt_trans {a b c : String} (h1 : strLt a b = true) (h2 : strLt b c = true) :
    strLt a c = true := charListLt_trans _ _ _ h1 h2

/-- Any two strings are strLt-comparable or equal. -/
theorem strLt_connex (a b : String) : strLt a b = true ∨ strLt b a = true ∨ a = b := by
  rcases charListLt_connex a.toList b.toList with h | h | h
  · exact Or.inl h
  · exact Or.inr (Or.inl h)
  · exact Or.inr (Or.inr (String.toList_inj.mp h))

/-- lexMax? is none exactly on the empty list. -/
theorem lexMax?_eq_none : ∀ l : List String, lexMax? l = none → l = [] := by
  intro l h
  cases l with
  | nil => rfl
  | cons a t =>
    rw [lexMax?] at h
    cases h2 : lexMax? t with
    | none => simp only [h2] at h; simp at h
    | some mx => simp only [h2] at h; split_ifs at h

/-- The lexMax? result is a member of the list. -/
theorem lexMax?_mem : ∀ (l : List String) (m : String), lexMax? l = some m → m ∈ l := by
  intro l
  induction l with
  | nil => intro m h; simp [lexMax?] at h
  | cons s rest ih =>
    intro m h
    rw [lexMax?] at h
    cases hr : lexMax? rest with
    | none =>
      simp only [hr] at h
      simp at h
      subst h
      exact List.mem_cons_self _ _
    | some mx =>
      simp only [hr] at h
      by_cases hc : strLt mx s = true
      · rw [if_pos hc] at h
        simp at h
        subst h
        exact List.mem_cons_self _ _
      · rw [if_neg hc] at h
        simp at h
        subst h
        exact List.mem_cons_of_mem _ (ih _ hr)

/-- No list element is strictly greater than the lexMax? result. -/
theorem lexMax?_ub : ∀ (l : List String) (m : String), lexMax? l = some m →
    ∀ x ∈ l, strLt m x = false := by
  intro l
  induction l with
  | nil => intro m h; simp [lexMax?] at h
  | cons s rest ih =>
    intro m h x hx
    rw [lexMax?] at h
    cases hr : lexMax? rest with
    | none =>
      simp only [hr] at h
      simp at h
      subst h
      have hrest : rest = [] := lexMax?_eq_none rest hr
      subst hrest
      simp at hx
      subst hx
      exact strLt_irrefl _
    | some mx =>
      simp only [hr] at h
      by_cases hc : strLt mx s = true
      · rw [if_pos hc] at h
        simp at h
        subst h
        rcases List.mem_cons.mp hx with rfl | hxr
        · exact strLt_irrefl _
        · by_contra hsx
          rw [Bool.not_eq_false] at hsx
          have htr := strLt_trans hc hsx
          have hfa := ih mx hr x hxr
          rw [hfa] at htr
          exact absurd htr (by simp)
      · rw [if_neg hc] at h
        simp at h
        subst h
        rcases List.mem_cons.mp hx with rfl | hxr
        · simp at hc
          exact hc
        · exact ih mx hr x hxr

set_option maxRecDepth 100000 in
/-- C3 amended: with no stored number carrying the year's COT- first part the
generator returns sequence 1; otherwise, when the lexicographically greatest
match parses to k, it returns sequence k+1; the sequence is rendered
zero-padded to width 3, which is exactly three digits whenever the resulting
sequence is at most 999 (but grows to four digits beyond, so the string is not
always of the 3-digit shape). -/
theorem quotation_number_generation_spec :
    ∀ (stored : List String) (year : Nat),
    ((∀ s ∈ stored, strHasPfx ("COT-" ++ toString year ++ "-") s = false) →
      generate_quotation_number stored year =
        some ("COT-" ++ toString year ++ "-" ++ format3 1))
    ∧ (∀ m k,
        m ∈ stored.filter (fun s => strHasPfx ("COT-" ++ toString year ++ "-") s) →
        (∀ s ∈ stored.filter (fun s => strHasPfx ("COT-" ++ toString year ++ "-") s),
          strLt m s = false) →
        extractSeq m = some k →
        generate_quotation_number stored year =
          some ("COT-" ++ toString year ++ "-" ++ format3 (k + 1)))
    ∧ (∀ n, n < 999 → (format3 (n + 1)).length = 3) := by
  intro stored year
  refine ⟨?_, ?_, by decide⟩
  · intro h
    have hfil : stored.filter (fun s => strHasPfx ("COT-" ++ toString year ++ "-") s) = [] := by
      rw [List.filter_eq_nil_iff]
      intro a ha
      simp [h a ha]
    simp only [generate_quotation_number, hfil, lexMax?]
  · intro m k hm hub hk
    have hmax : lexMax?
        (stored.filter (fun s => strHasPfx ("COT-" ++ toString year ++ "-") s)) = some m := by
      cases hl : lexMax?
          (stored.filter (fun s => strHasPfx ("COT-" ++ toString year ++ "-") s)) with
      | none =>
        rw [lexMax?_eq_none _ hl] at hm
        simp at hm
      | some m0 =>
        have h1 : strLt m m0 = false := hub m0 (lexMax?_mem _ _ hl)
        have h2 : strLt m0 m = false := lexMax?_ub _ _ hl m hm
        rcases strLt_connex m m0 with h | h | h
        · rw [h1] at h; exact absurd h (by simp)
        · rw [h2] at h; exact absurd h (by simp)
        · rw [h]
    simp only [generate_quotation_number, hmax, hk]

/-- C3 counterexample: with COT-2026-999 stored, the generator returns
COT-2026-1000, whose trailing dash-field has four digits, so the returned
string does not always match the 3-digit shape COT-year-NNN the claim
asserts. -/
theorem quotation_number_overflow :
    generate_quotation_number ["COT-2026-999"] 2026 = some "COT-2026-1000"
    ∧ (afterLastDash [] ("COT-2026-1000").toList).length = 4
    ∧ (4 : Nat) ≠ 3 := by
  refine ⟨by decide, by decide, by decide⟩

/-- C3 witness: in an empty store the 2026 sequence starts at 1; with
COT-2026-007 (and an older-year number) stored, the next number has
sequence 8. -/
theorem quotation_number_generation_spec_witness :
    generate_quotation_number [] 2026 = some ("COT-" ++ toString 2026 ++ "-" ++ format3 1)
    ∧ generate_quotation_number ["COT-2026-007", "COT-2025-099"] 2026 =
        some ("COT-" ++ toString 2026 ++ "-" ++ format3 (7 + 1)) :=
  ⟨(quotation_number_generation_spec [] 2026).1 (by simp),
   (quotation_number_generation_spec ["COT-2026-007", "COT-2025-099"] 2026).2.1
     "COT-2026-007" 7 (by decide) (by decide) (by decide)⟩

/-- The computed page count k = (tc + l - 1) / l is the exact ceiling of
tc / l: it is the least k with tc ≤ k*l. -/
theorem ceil_div_bounds (tc l : Nat) (hl : 1 ≤ l) :
    tc ≤ ((tc + l - 1) / l) * l ∧ ((tc + l - 1) / l) * l < tc + l := by
  have h3 := Nat.lt_mul_div_succ (tc + l - 1) (show 0 < l by omega)
  rw [Nat.mul_add, Nat.mul_one, Nat.mul_comm] at h3
  have h4 := Nat.div_mul_le_self (tc + l - 1) l
  omega

/-- C7 amended: for every store and filter set with page size in 1..100, the
listing returns the filtered count, a page count equal to
ceil(filteredCount/pageSize) with NO minimum (0 when nothing matches),
hasNext true exactly when page < pageCount, hasPrev true exactly when
page > 1, and a page slice that is non-increasing in creation time (the query
orders by created_at descending only; ties carry no id ordering) and no longer
than the page size. -/
theorem listing_pagination_behavior :
    ∀ (db : DB) (f : QuotationFilters), 1 ≤ f.limit → f.limit ≤ 100 →
    (get_quotations_with_filters db f).total_count =
        (db.quotations.filter (passesFilters f)).length
    ∧ (get_quotations_with_filters db f).total_pages =
        ((get_quotations_with_filters db f).total_count + f.limit - 1) / f.limit
    ∧ (get_quotations_with_filters db f).total_count ≤
        (get_quotations_with_filters db f).total_pages * f.limit
    ∧ (get_quotations_with_filters db f).total_pages * f.limit <
        (get_quotations_with_filters db f).total_count + f.limit
    ∧ ((get_quotations_with_filters db f).has_next = true ↔
        f.page < (get_quotations_with_filters db f).total_pages)
    ∧ ((get_quotations_with_filters db f).has_prev = true ↔ 1 < f.page)
    ∧ List.Pairwise createdDesc (get_quotations_with_filters db f).quotations
    ∧ (get_quotations_with_filters db f).quotations.length ≤ f.limit := by
  intro db f hl hu
  obtain ⟨hb1, hb2⟩ :=
    ceil_div_bounds ((db.quotations.filter (passesFilters f)).length) f.limit hl
  have hs := List.sorted_insertionSort createdDesc (db.quotations.filter (passesFilters f))
  exact ⟨rfl, rfl, hb1, hb2, decide_eq_true_iff, decide_eq_true_iff,
    List.Pairwise.sublist ((List.take_sublist _ _).trans (List.drop_sublist _ _)) hs,
    List.length_take_le _ _⟩

/-- C7 counterexample: with zero matching rows the page count is 0, not the
claimed minimum of 1; and two rows created at the same instant are returned in
storage order [id 1, id 2], not in the claimed id-descending tie order. -/
theorem listing_pagination_claim_false :
    (get_quotations_with_filters dbEmpty noFilters).total_pages = 0
    ∧ (0 : Nat) ≠ 1
    ∧ ((get_quotations_with_filters dbTie noFilters).quotations.map (fun q => q.id)) = [1, 2]
    ∧ ([1, 2] : List Nat) ≠ [2, 1] := by
  exact ⟨by decide, by decide, by decide, by decide⟩

/-- C7 witness: the amended statement instantiated on the two-row store with
the default filters. -/
theorem listing_pagination_behavior_witness :
    (get_quotations_with_filters dbTie noFilters).total_pages =
      ((get_quotations_with_filters dbTie noFilters).total_count + noFilters.limit - 1) /
        noFilters.limit
    ∧ ((get_quotations_with_filters dbTie noFilters).has_prev = true ↔ 1 < noFilters.page)
    ∧ List.Pairwise createdDesc (get_quotations_with_filters dbTie noFilters).quotations := by
  have h := listing_pagination_behavior dbTie noFilters (by decide) (by decide)
  exact ⟨h.2.1, h.2.2.2.2.2.1, h.2.2.2.2.2.2.1⟩

/-- C4 counterexample: a quotation created with the single item (quantity 1,
unit price 1.011, discount 49 percent) stores the item fields
(1.01, 0.50, 0.52) but the document total round(1.01 - 0.50 + 0, 2) = 0.51,
so the total aggregate does NOT equal the sum of its items' rounded total
fields: the claim's "each aggregate equals the sum of its items'
corresponding rounded fields" fails for total. -/
theorem created_quotation_total_sum_mismatch :
    create_quotation dbEmpty mismatchData 7 2026 0 =
      some (mismatchDB, mismatchQuot, [mismatchItemRec])
    ∧ mismatchQuot.total = 51/100
    ∧ (([mismatchItemRec].map (fun it => it.total)).sum) = 13/25
    ∧ ((51:ℚ)/100) ≠ 13/25 := by
  have e1 : pyRound2 ((1011:ℚ)/1000) = 101/100 := by
    unfold pyRound2
    rw [roundHalfEven_of_lt ((1011:ℚ)/1000 * 100) 101 (by norm_num) (by norm_num)]
    norm_num
  have e2 : pyRound2 ((49539:ℚ)/100000) = 1/2 := by
    unfold pyRound2
    rw [roundHalfEven_of_gt ((49539:ℚ)/100000 * 100) 49 (by norm_num) (by norm_num)
      (by norm_num)]
    norm_num
  have e3 : pyRound2 ((51561:ℚ)/100000) = 13/25 := by
    unfold pyRound2
    rw [roundHalfEven_of_gt ((51561:ℚ)/100000 * 100) 51 (by norm_num) (by norm_num)
      (by norm_num)]
    norm_num
  have e4 : pyRound2 ((101:ℚ)/100) = 101/100 := pyRound2_cents ⟨101, by norm_num⟩
  have e5 : pyRound2 ((1:ℚ)/2) = 1/2 := pyRound2_cents ⟨50, by norm_num⟩
  have e6 : pyRound2 ((51:ℚ)/100) = 51/100 := pyRound2_cents ⟨51, by norm_num⟩
  have hg : generate_quotation_number
      (dbEmpty.quotations.map (fun r => r.quotation_number)) 2026 = some "COT-2026-001" := by
    decide
  refine ⟨?_, by norm_num [mismatchQuot], by norm_num [mismatchItemRec], by norm_num⟩
  unfold create_quotation
  rw [hg]
  norm_num [dbEmpty, mismatchData, mismatchDB, mismatchQuot, mismatchItemRec,
    mismatchItem, mkItems, calculate_item_totals, calculate_quotation_totals,
    maxQuotId, maxItemId, List.foldl, e1, e2, e3, e4, e5, e6, pyRound2_zero]
